import Mathlib

/-!
# Verification of the provider-adapter layer

Shallow embedding of the AI21 completion adapter
(`langchain/src/llms/ai21.ts`) and the OpenAI moderation chain
(`langchain/src/chains/openai_moderation.ts`).

Conventions used to translate the TypeScript:

* `undefined` is `Option.none`; `a ?? b` is `Option.getD` / `Option.orElse`
  (it falls through only on `null`/`undefined`, so an empty string or an
  empty array on the left wins);
* JS truthiness of a string value: `undefined` and `""` are falsy, every
  other string is truthy; an array value is always truthy (even `[]`);
* `getEnvironmentVariable` is modelled by passing the environment snapshot
  for the relevant key as an explicit `Option String` argument;
* the shared `AsyncCaller` wrapper (`callWithOptions` / `call`) is, per the
  repository, a pass-through around the supplied closure, so the single
  simulated HTTP exchange is modelled by handing the parsed `FetchResponse`
  to the call function directly;
* a thrown JS `Error` is an `Except.error` carrying a `JSError` record: its
  `message` string and the optional `response` property that the AI21
  adapter attaches for HTTP-status failures.
-/

namespace LangChain

/-- JS truthiness of an optional string (`undefined` and `""` are falsy). -/
def strTruthy : Option String → Bool
  | none => false
  | some s => s != ""

/-- `CompletionData`: the `data` member of one AI21 completion; its `text`
member may be absent. -/
structure CompletionData where
  text : Option String
deriving DecidableEq, Repr

/-- One element of the AI21 `completions` array; its `data` member may be
absent. -/
structure Completion where
  data : Option CompletionData
deriving DecidableEq, Repr

/-- The parsed JSON envelope of an AI21 response; the `completions` array
itself may be absent. -/
structure AI21ResponseData where
  completions : Option (List Completion)
deriving DecidableEq, Repr

/-- The parsed result of `fetch`: the `ok` flag, the numeric `status`, and
the JSON body that `response.json()` would produce. -/
structure FetchResponse where
  ok : Bool
  status : ℕ
  body : AI21ResponseData
deriving DecidableEq, Repr

/-- A thrown JS `Error`: its message, plus the `response` property the AI21
adapter attaches on HTTP-status failures (absent on every other error). -/
structure JSError where
  message : String
  response : Option FetchResponse := none
deriving DecidableEq, Repr

/-- `AI21PenaltyData` from `ai21.ts`. -/
structure AI21PenaltyData where
  scale : ℚ
  applyToWhitespaces : Bool
  applyToPunctuations : Bool
  applyToNumbers : Bool
  applyToStopwords : Bool
  applyToEmojis : Bool
deriving DecidableEq, Repr

/-- The `AI21Input` parameter object: every field optional (`undefined` when
not supplied).  `logitBias` (a JS string-keyed record) is an association
list. -/
structure AI21Input where
  ai21ApiKey : Option String := none
  model : Option String := none
  temperature : Option ℚ := none
  minTokens : Option ℕ := none
  maxTokens : Option ℕ := none
  topP : Option ℚ := none
  presencePenalty : Option AI21PenaltyData := none
  countPenalty : Option AI21PenaltyData := none
  frequencyPenalty : Option AI21PenaltyData := none
  numResults : Option ℕ := none
  logitBias : Option (List (String × ℚ)) := none
  stop : Option (List String) := none
  baseUrl : Option String := none
deriving DecidableEq, Repr

/-- The instance fields of class `AI21` after construction. -/
structure AI21 where
  model : String
  temperature : ℚ
  maxTokens : ℕ
  minTokens : ℕ
  topP : ℚ
  presencePenalty : AI21PenaltyData
  countPenalty : AI21PenaltyData
  frequencyPenalty : AI21PenaltyData
  numResults : ℕ
  logitBias : Option (List (String × ℚ))
  ai21ApiKey : Option String
  stop : Option (List String)
  baseUrl : Option String
deriving DecidableEq, Repr

/-- `AI21.getDefaultAI21PenaltyData`. -/
def AI21.getDefaultAI21PenaltyData : AI21PenaltyData :=
  { scale := 0
    applyToWhitespaces := true
    applyToPunctuations := true
    applyToNumbers := true
    applyToStopwords := true
    applyToEmojis := true }

/-- The `AI21` constructor: field initializers (the defaults) overridden by
the supplied fields via `??`; the API key falls back to the
`AI21_API_KEY` environment variable (`env`).  The constructor body contains
no validation and no throw: it always produces an instance. -/
def AI21.construct (fields : Option AI21Input) (env : Option String) : AI21 :=
  { model := (fields.bind AI21Input.model).getD "j2-jumbo-instruct"
    temperature := (fields.bind AI21Input.temperature).getD 0.7
    maxTokens := (fields.bind AI21Input.maxTokens).getD 1024
    minTokens := (fields.bind AI21Input.minTokens).getD 0
    topP := (fields.bind AI21Input.topP).getD 1
    presencePenalty :=
      (fields.bind AI21Input.presencePenalty).getD AI21.getDefaultAI21PenaltyData
    countPenalty :=
      (fields.bind AI21Input.countPenalty).getD AI21.getDefaultAI21PenaltyData
    frequencyPenalty :=
      (fields.bind AI21Input.frequencyPenalty).getD AI21.getDefaultAI21PenaltyData
    numResults := (fields.bind AI21Input.numResults).getD 1
    logitBias := fields.bind AI21Input.logitBias
    ai21ApiKey := (fields.bind AI21Input.ai21ApiKey).orElse (fun _ => env)
    stop := fields.bind AI21Input.stop
    baseUrl := fields.bind AI21Input.baseUrl }

/-- `AI21.validateEnvironment`: throws when `this.ai21ApiKey` is falsy
(absent or empty). -/
def AI21.validateEnvironment (s : AI21) : Except JSError Unit :=
  if !(strTruthy s.ai21ApiKey) then
    .error { message := "No AI21 API key found. Please set it as \"AI21_API_KEY\" in your environment variables." }
  else
    .ok ()

/-- The call options passed to `_call` (`ParsedCallOptions`): the optional
call-time stop list and the optional abort signal. -/
structure CallOptions where
  stop : Option (List String) := none
  signal : Option Unit := none
deriving DecidableEq, Repr

/-- The condition of the stop-conflict guard in `_call`:
`this.stop && stop && this.stop.length > 0 && stop.length > 0`.
Arrays are always truthy in JS, so the first two conjuncts test presence
only and the length tests do the real work. -/
def AI21.stopConflict (s : AI21) (options : CallOptions) : Bool :=
  match s.stop, options.stop with
  | some a, some b => decide (a.length > 0) && decide (b.length > 0)
  | _, _ => false

/-- The stop list placed into the request body:
`stop = this.stop ?? stop ?? []` (only reached when the conflict guard did
not fire).  `??` falls through only on `undefined`, so a *present but
empty* static list wins over call-time options. -/
def AI21.mergedStop (s : AI21) (options : CallOptions) : List String :=
  s.stop.getD (options.stop.getD [])

/-- The resolved base URL.  The source reads
`this.baseUrl ?? this.model === "j1-grande-instruct" ? EXPERIMENTAL : STANDARD`,
and in TypeScript `??` binds tighter than `?:`, so the parse is
`(this.baseUrl ?? (this.model === "j1-grande-instruct")) ? EXPERIMENTAL : STANDARD`:
a present `baseUrl` becomes the *condition* (by string truthiness) and its
value is never used as the base. -/
def AI21.resolveBaseUrl (s : AI21) : String :=
  if (match s.baseUrl with
      | some u => u != ""
      | none => s.model == "j1-grande-instruct") then
    "https://api.ai21.com/studio/v1/experimental"
  else
    "https://api.ai21.com/studio/v1"

/-- The spread `...this.defaultParams` of the getter `defaultParams`. -/
structure AI21DefaultParams where
  temperature : ℚ
  maxTokens : ℕ
  minTokens : ℕ
  topP : ℚ
  presencePenalty : AI21PenaltyData
  countPenalty : AI21PenaltyData
  frequencyPenalty : AI21PenaltyData
  numResults : ℕ
  logitBias : Option (List (String × ℚ))
deriving DecidableEq, Repr

/-- The `defaultParams` getter. -/
def AI21.defaultParams (s : AI21) : AI21DefaultParams :=
  { temperature := s.temperature
    maxTokens := s.maxTokens
    minTokens := s.minTokens
    topP := s.topP
    presencePenalty := s.presencePenalty
    countPenalty := s.countPenalty
    frequencyPenalty := s.frequencyPenalty
    numResults := s.numResults
    logitBias := s.logitBias }

/-- The request body `{ prompt, stopSequences: stop, ...this.defaultParams }`. -/
structure AI21RequestData where
  prompt : String
  stopSequences : List String
  params : AI21DefaultParams
deriving DecidableEq, Repr

/-- The outbound POST that `_call` hands to `fetch`: target URL and the two
headers, plus the JSON body. -/
structure AI21Request where
  url : String
  authorization : String
  contentType : String
  body : AI21RequestData
deriving DecidableEq, Repr

/-- The request `_call` builds once validation and the conflict guard have
passed: `url = baseUrl + "/" + model + "/complete"`, a bearer header from
the key (guaranteed present and non-empty at this point), JSON content
type. -/
def AI21.buildRequest (s : AI21) (prompt : String) (options : CallOptions) : AI21Request :=
  { url := AI21.resolveBaseUrl s ++ "/" ++ s.model ++ "/complete"
    authorization := "Bearer " ++ s.ai21ApiKey.getD ""
    contentType := "application/json"
    body :=
      { prompt := prompt
        stopSequences := AI21.mergedStop s options
        params := AI21.defaultParams s } }

/-- The empty-result guard of `_call`:
`!responseData.completions || responseData.completions.length === 0 ||
!responseData.completions[0].data`. -/
def AI21.noCompletions (rd : AI21ResponseData) : Bool :=
  match rd.completions with
  | none => true
  | some cs =>
    decide (cs.length = 0) ||
      (match cs.head? with
       | none => true
       | some c => c.data.isNone)

/-- The returned string `responseData.completions[0].data.text ?? ""`.
Only evaluated when `noCompletions` is `false`, so the `getD` defaults for
the outer layers can never be reached there. -/
def AI21.extractText (rd : AI21ResponseData) : String :=
  match rd.completions with
  | some (c :: _) =>
    match c.data with
    | some d => d.text.getD ""
    | none => ""
  | _ => ""

/-- The outcome of one `_call` invocation: either an error thrown before
`fetch` was reached (no outbound request), or the issued request together
with what happened after the (simulated) response arrived. -/
inductive CallResult where
  | earlyError (e : JSError)
  | fetched (req : AI21Request) (outcome : Except JSError String)
deriving Repr

/-- The issued request of a `CallResult`, `none` when the call failed before
any request was sent. -/
def CallResult.request : CallResult → Option AI21Request
  | .earlyError _ => none
  | .fetched req _ => some req

/-- `AI21._call`, with the instance state passed explicitly and returned at
every exit point.  The method body assigns to no instance field, so each
branch returns the state it was given.  Control flow, in source order:
`validateEnvironment`; the stop-conflict guard; build URL, headers and
body; `fetch` (simulated by `response`); the `!response.ok` branch throwing
an error that carries the status code in its message and the raw response
in its `response` property; the empty-completions guard; the text
extraction. -/
def AI21._call (s : AI21) (prompt : String) (options : CallOptions)
    (response : FetchResponse) : CallResult × AI21 :=
  match AI21.validateEnvironment s with
  | .error e => (.earlyError e, s)
  | .ok _ =>
    if AI21.stopConflict s options then
      (.earlyError { message := "`stop` found in both the input and default params." }, s)
    else
      let req := AI21.buildRequest s prompt options
      if !response.ok then
        (.fetched req (.error
          { message := "AI21 call failed with status code " ++ toString response.status
            response := some response }), s)
      else if AI21.noCompletions response.body then
        (.fetched req (.error { message := "No completions found in response" }), s)
      else
        (.fetched req (.ok (AI21.extractText response.body)), s)

/-- The `OpenAIModerationChainInput` parameter object (the chain-input and
caller fields it inherits play no role in the embedded logic). -/
structure OpenAIModerationChainInput where
  openAIApiKey : Option String := none
  openAIOrganization : Option String := none
  «throwError» : Option Bool := none
deriving DecidableEq, Repr

/-- The instance fields of `OpenAIModerationChain` after construction (the
SDK client and caller objects are construction-time collaborators with no
bearing on the embedded logic). -/
structure OpenAIModerationChain where
  inputKey : String
  outputKey : String
  openAIApiKey : Option String
  openAIOrganization : Option String
  «throwError» : Bool
deriving DecidableEq, Repr

/-- The `OpenAIModerationChain` constructor: `«throwError»` defaults to
`false`; the key falls back to the `OPENAI_API_KEY` environment variable
(`env`) and, when still falsy, the constructor throws
`"OpenAI API key not found"` before any client is created. -/
def OpenAIModerationChain.construct (fields : Option OpenAIModerationChainInput)
    (env : Option String) : Except JSError OpenAIModerationChain :=
  let throwErrorV := (fields.bind OpenAIModerationChainInput.«throwError»).getD false
  let key := (fields.bind OpenAIModerationChainInput.openAIApiKey).orElse (fun _ => env)
  if !(strTruthy key) then
    .error { message := "OpenAI API key not found" }
  else
    .ok { inputKey := "input"
          outputKey := "output"
          openAIApiKey := key
          openAIOrganization := fields.bind OpenAIModerationChainInput.openAIOrganization
          «throwError» := throwErrorV }

/-- The moderation verdict (`OpenAI.Moderation`); only its `flagged` member
is consulted by the chain. -/
structure Moderation where
  flagged : Bool
deriving DecidableEq, Repr

/-- `OpenAIModerationChain._moderate`: flagged input is replaced by (or, when
`«throwError»` holds, thrown as) the fixed policy string; unflagged input is
returned unchanged. -/
def OpenAIModerationChain._moderate (c : OpenAIModerationChain) (text : String)
    (results : Moderation) : Except JSError String :=
  if results.flagged then
    let errorStr := "Text was found that violates OpenAI's content policy."
    if c.«throwError» then
      .error { message := errorStr }
    else
      .ok errorStr
  else
    .ok text

/-! ## Sample values used by witnesses and counterexamples -/

/-- An AI21 instance constructed with only an explicit API key. -/
def sampleAI21 : AI21 :=
  AI21.construct (some { ai21ApiKey := some "test-key" }) none

/-- A moderation chain as constructed with only an explicit API key. -/
def sampleModerationChain : OpenAIModerationChain :=
  { inputKey := "input"
    outputKey := "output"
    openAIApiKey := some "test-key"
    openAIOrganization := none
    «throwError» := false }

/-- A successful response carrying one completion with text. -/
def sampleOkResponse : FetchResponse :=
  { ok := true
    status := 200
    body := { completions := some [{ data := some { text := some "hello" } }] } }

/-! ## Shared lemmas -/

/-- Once the credential check and the stop-conflict guard both pass, `_call`
reaches `fetch`, and the issued request is `buildRequest` whatever the
response holds. -/
theorem call_request_eq (s : AI21) (prompt : String) (options : CallOptions)
    (response : FetchResponse)
    (hkey : strTruthy s.ai21ApiKey = true)
    (hconf : AI21.stopConflict s options = false) :
    ((AI21._call s prompt options response).1).request =
      some (AI21.buildRequest s prompt options) := by
  simp only [AI21._call, AI21.validateEnvironment, hkey, Bool.not_true, Bool.false_eq_true,
    if_false, hconf]
  split
  · simp [CallResult.request]
  · split <;> simp [CallResult.request]

/-! ## Claims -/

/-- C8: the static default penalty descriptor equals
`{scale: 0, applyToWhitespaces: true, applyToPunctuations: true,
applyToNumbers: true, applyToStopwords: true, applyToEmojis: true}` exactly,
and an instance constructed without penalty fields has `presencePenalty`,
`countPenalty` and `frequencyPenalty` all equal to it. -/
theorem C8_default_penalty_data (fields : AI21Input) (env : Option String)
    (h1 : fields.presencePenalty = none)
    (h2 : fields.countPenalty = none)
    (h3 : fields.frequencyPenalty = none) :
    AI21.getDefaultAI21PenaltyData =
      { scale := 0
        applyToWhitespaces := true
        applyToPunctuations := true
        applyToNumbers := true
        applyToStopwords := true
        applyToEmojis := true }
    ∧ (AI21.construct (some fields) env).presencePenalty = AI21.getDefaultAI21PenaltyData
    ∧ (AI21.construct (some fields) env).countPenalty = AI21.getDefaultAI21PenaltyData
    ∧ (AI21.construct (some fields) env).frequencyPenalty = AI21.getDefaultAI21PenaltyData := by
  refine ⟨rfl, ?_, ?_, ?_⟩ <;> simp [AI21.construct, h1, h2, h3]

/-- Witness for C8 at the empty input record. -/
theorem C8_default_penalty_data_witness :
    (AI21.construct (some {}) none).presencePenalty = AI21.getDefaultAI21PenaltyData :=
  (C8_default_penalty_data {} none rfl rfl rfl).2.1

/-- C2: when the static stop list and the call-time stop list are both
present and both non-empty, `_call` throws the conflict error, and the
result is `earlyError`, i.e. produced before any outbound request (the
`fetched` constructor is the only one carrying a request). -/
theorem C2_stop_conflict (s : AI21) (prompt : String) (options : CallOptions)
    (response : FetchResponse) (a b : List String)
    (hkey : strTruthy s.ai21ApiKey = true)
    (hs : s.stop = some a) (ho : options.stop = some b)
    (ha : a ≠ []) (hb : b ≠ []) :
    (AI21._call s prompt options response).1 =
      .earlyError { message := "`stop` found in both the input and default params." } := by
  have hconf : AI21.stopConflict s options = true := by
    simp [AI21.stopConflict, hs, ho, List.length_pos, ha, hb]
  simp [AI21._call, AI21.validateEnvironment, hkey, hconf]

/-- Witness for C2 at a concrete instance and call. -/
theorem C2_stop_conflict_witness :
    (AI21._call { sampleAI21 with stop := some ["x"] } "p" { stop := some ["y"] }
        sampleOkResponse).1 =
      .earlyError { message := "`stop` found in both the input and default params." } :=
  C2_stop_conflict _ "p" _ sampleOkResponse ["x"] ["y"] (by decide) rfl rfl
    (by decide) (by decide)

/-- C3 counterexample: with a static stop list that is present but *empty*
and a call-time stop list `["a"]`, the request body's `stopSequences` is the
static empty list, not the call-time value — `this.stop ?? stop ?? []` only
falls through on `undefined`, so the claim's "empty (or absent)" reading
fails on the empty-list half. -/
theorem C3_counterexample :
    (((AI21._call { sampleAI21 with stop := some [] } "p" { stop := some ["a"] }
          sampleOkResponse).1.request).map (fun r => r.body.stopSequences) = some [])
    ∧ (((AI21._call { sampleAI21 with stop := some [] } "p" { stop := some ["a"] }
          sampleOkResponse).1.request).map (fun r => r.body.stopSequences) ≠ some ["a"]) :=
  ⟨rfl, by decide⟩

/-- C3 amended: the call-time stop list is the one placed into the request
body's `stopSequences` exactly when the static stop list is *absent*
(`undefined`); a present static list — even the empty one — overrides the
call-time value. -/
theorem C3_calltime_stop_used_when_static_absent (s : AI21) (prompt : String)
    (options : CallOptions) (response : FetchResponse) (l : List String)
    (hkey : strTruthy s.ai21ApiKey = true)
    (hs : s.stop = none) (ho : options.stop = some l) :
    ((AI21._call s prompt options response).1.request).map (fun r => r.body.stopSequences) =
      some l := by
  have hconf : AI21.stopConflict s options = false := by
    simp [AI21.stopConflict, hs]
  rw [call_request_eq s prompt options response hkey hconf]
  simp [AI21.buildRequest, AI21.mergedStop, hs, ho]

/-- Witness for the amended C3 at a concrete instance and call. -/
theorem C3_calltime_stop_used_when_static_absent_witness :
    ((AI21._call sampleAI21 "p" { stop := some ["a"] } sampleOkResponse).1.request).map
        (fun r => r.body.stopSequences) = some ["a"] :=
  C3_calltime_stop_used_when_static_absent sampleAI21 "p" { stop := some ["a"] }
    sampleOkResponse ["a"] (by decide) rfl rfl

/-- C4: evaluating `_call` on an instance constructed with
`baseUrl = "https://example.com"` shows the request goes to the
*experimental* AI21 endpoint, not to the configured base URL: in
`this.baseUrl ?? this.model === "j1-grande-instruct" ? A : B` the `??`
binds tighter than `?:`, so a present `baseUrl` only ever acts as the
condition and its value is discarded. -/
theorem C4_baseUrl_ignored :
    (((AI21._call { sampleAI21 with baseUrl := some "https://example.com" } "p" {}
          sampleOkResponse).1.request).map AI21Request.url =
      some "https://api.ai21.com/studio/v1/experimental/j2-jumbo-instruct/complete")
    ∧ (((AI21._call { sampleAI21 with baseUrl := some "https://example.com" } "p" {}
          sampleOkResponse).1.request).map AI21Request.url ≠
      some "https://example.com/j2-jumbo-instruct/complete") :=
  ⟨rfl, by decide⟩

/-- C1 counterexample: the AI21 constructor, whose source body contains no
validation and no throw, succeeds on an input with no credential and no
environment fallback — it returns an ordinary instance with
`ai21ApiKey = none` instead of raising a missing-credential error at
construction time. -/
theorem C1_counterexample :
    AI21.construct none none =
      { model := "j2-jumbo-instruct"
        temperature := 0.7
        maxTokens := 1024
        minTokens := 0
        topP := 1
        presencePenalty := AI21.getDefaultAI21PenaltyData
        countPenalty := AI21.getDefaultAI21PenaltyData
        frequencyPenalty := AI21.getDefaultAI21PenaltyData
        numResults := 1
        logitBias := none
        ai21ApiKey := none
        stop := none
        baseUrl := none }
    ∧ (AI21.construct none none).ai21ApiKey = none :=
  ⟨rfl, rfl⟩

/-- C1 amended: without an explicit credential and without the environment
fallback, `OpenAIModerationChain` raises the missing-credential error at
construction time, while `AI21` constructs successfully and raises its
missing-credential error at the start of `_call` — in both cases before any
outbound request is issued (the AI21 result is `earlyError`, which carries
no request). -/
theorem C1_missing_credential (mfields : Option OpenAIModerationChainInput)
    (menv : Option String) (afields : Option AI21Input) (aenv : Option String)
    (prompt : String) (options : CallOptions) (response : FetchResponse)
    (hm : mfields.bind OpenAIModerationChainInput.openAIApiKey = none)
    (hmenv : menv = none)
    (ha : afields.bind AI21Input.ai21ApiKey = none)
    (haenv : aenv = none) :
    OpenAIModerationChain.construct mfields menv =
      .error { message := "OpenAI API key not found" }
    ∧ (AI21._call (AI21.construct afields aenv) prompt options response).1 =
        .earlyError { message := "No AI21 API key found. Please set it as \"AI21_API_KEY\" in your environment variables." }
    ∧ ((AI21._call (AI21.construct afields aenv) prompt options response).1).request =
        none := by
  have hakey : (AI21.construct afields aenv).ai21ApiKey = none := by
    simp [AI21.construct, ha, haenv, Option.orElse]
  refine ⟨?_, ?_, ?_⟩
  · simp [OpenAIModerationChain.construct, hm, hmenv, strTruthy, Option.orElse]
  · simp [AI21._call, AI21.validateEnvironment, hakey, strTruthy]
  · simp [AI21._call, AI21.validateEnvironment, hakey, strTruthy, CallResult.request]

/-- Witness for the amended C1: both adapters given no credential at all. -/
theorem C1_missing_credential_witness :
    OpenAIModerationChain.construct none none =
      .error { message := "OpenAI API key not found" }
    ∧ (AI21._call (AI21.construct none none) "p" {} sampleOkResponse).1 =
        .earlyError { message := "No AI21 API key found. Please set it as \"AI21_API_KEY\" in your environment variables." }
    ∧ ((AI21._call (AI21.construct none none) "p" {} sampleOkResponse).1).request =
        none :=
  C1_missing_credential none none none none "p" {} sampleOkResponse rfl rfl rfl rfl

/-- C5: a non-success HTTP response makes `_call` fail with an error whose
message is the fixed text followed by the numeric status code (so the
rendered status is a substring of the message) and whose `response`
property is the original response object. -/
theorem C5_http_status_error (s : AI21) (prompt : String) (options : CallOptions)
    (response : FetchResponse)
    (hkey : strTruthy s.ai21ApiKey = true)
    (hconf : AI21.stopConflict s options = false)
    (hok : response.ok = false) :
    (AI21._call s prompt options response).1 =
      .fetched (AI21.buildRequest s prompt options)
        (.error { message := "AI21 call failed with status code " ++ toString response.status
                  response := some response })
    ∧ (toString response.status).data <:+:
        ("AI21 call failed with status code " ++ toString response.status).data := by
  constructor
  · simp [AI21._call, AI21.validateEnvironment, hkey, hconf, hok]
  · rw [String.data_append]
    exact (List.suffix_append _ _).isInfix

/-- Witness for C5 at a simulated status-500 response, where the message
contains "500". -/
theorem C5_http_status_error_witness :
    ((AI21._call sampleAI21 "p" {}
        { ok := false, status := 500, body := { completions := none } }).1 =
      .fetched (AI21.buildRequest sampleAI21 "p" {})
        (.error { message := "AI21 call failed with status code 500"
                  response := some { ok := false, status := 500, body := { completions := none } } }))
    ∧ "500".data <:+: "AI21 call failed with status code 500".data := by
  have h := C5_http_status_error sampleAI21 "p" {}
    { ok := false, status := 500, body := { completions := none } }
    (by decide) rfl rfl
  exact ⟨h.1, h.2⟩

/-- C6: a successful response whose `completions` field is absent, empty,
or whose first element lacks `data` makes `_call` fail with the
empty-result error rather than return a string. -/
theorem C6_empty_result (s : AI21) (prompt : String) (options : CallOptions)
    (response : FetchResponse)
    (hkey : strTruthy s.ai21ApiKey = true)
    (hconf : AI21.stopConflict s options = false)
    (hok : response.ok = true)
    (hempty : response.body.completions = none ∨ response.body.completions = some [] ∨
      ∃ c rest, response.body.completions = some (c :: rest) ∧ c.data = none) :
    (AI21._call s prompt options response).1 =
      .fetched (AI21.buildRequest s prompt options)
        (.error { message := "No completions found in response" }) := by
  have hnc : AI21.noCompletions response.body = true := by
    rcases hempty with h | h | ⟨c, rest, h, hd⟩ <;> simp [AI21.noCompletions, h, *]
  simp [AI21._call, AI21.validateEnvironment, hkey, hconf, hok, hnc]

/-- Witness for C6 at a successful response carrying an empty completions
array. -/
theorem C6_empty_result_witness :
    (AI21._call sampleAI21 "p" {}
        { ok := true, status := 200, body := { completions := some [] } }).1 =
      .fetched (AI21.buildRequest sampleAI21 "p" {})
        (.error { message := "No completions found in response" }) :=
  C6_empty_result sampleAI21 "p" {}
    { ok := true, status := 200, body := { completions := some [] } }
    (by decide) rfl rfl (Or.inr (Or.inl rfl))

/-- C7: a successful response whose first completion has a `data` member
but no `text` member makes `_call` return the empty string explicitly
(`text ?? ""`), not an error. -/
theorem C7_missing_text_yields_empty_string (s : AI21) (prompt : String)
    (options : CallOptions) (response : FetchResponse)
    (c : Completion) (rest : List Completion) (d : CompletionData)
    (hkey : strTruthy s.ai21ApiKey = true)
    (hconf : AI21.stopConflict s options = false)
    (hok : response.ok = true)
    (hcs : response.body.completions = some (c :: rest))
    (hd : c.data = some d) (ht : d.text = none) :
    (AI21._call s prompt options response).1 =
      .fetched (AI21.buildRequest s prompt options) (.ok "") := by
  have hnc : AI21.noCompletions response.body = false := by
    simp [AI21.noCompletions, hcs, hd]
  have hext : AI21.extractText response.body = "" := by
    simp [AI21.extractText, hcs, hd, ht]
  simp [AI21._call, AI21.validateEnvironment, hkey, hconf, hok, hnc, hext]

/-- Witness for C7 at a concrete response with `data` but no `text`. -/
theorem C7_missing_text_yields_empty_string_witness :
    (AI21._call sampleAI21 "p" {}
        { ok := true, status := 200,
          body := { completions := some [{ data := some { text := none } }] } }).1 =
      .fetched (AI21.buildRequest sampleAI21 "p" {}) (.ok "") :=
  C7_missing_text_yields_empty_string sampleAI21 "p" {}
    { ok := true, status := 200,
      body := { completions := some [{ data := some { text := none } }] } }
    { data := some { text := none } } [] { text := none }
    (by decide) rfl rfl rfl rfl rfl

/-- C9: `_call`, embedded with the instance state threaded explicitly,
returns the state unchanged on every control path — whatever it returns or
throws, no configuration field is mutated. -/
theorem C9_config_unchanged (s : AI21) (prompt : String) (options : CallOptions)
    (response : FetchResponse) :
    (AI21._call s prompt options response).2 = s := by
  unfold AI21._call
  split
  · rfl
  · split
    · rfl
    · split
      · rfl
      · split <;> rfl

/-- C10: `_moderate` returns the input unchanged when the verdict is not
flagged; on a flagged verdict it throws the policy string when
`throwError` holds and returns the policy string otherwise; and a chain
constructed without a `throwError` field has `throwError = false`. -/
theorem C10_moderate_behavior (c : OpenAIModerationChain) (text : String)
    (results : Moderation) :
    (results.flagged = false →
      OpenAIModerationChain._moderate c text results = .ok text)
    ∧ (results.flagged = true → c.«throwError» = true →
        OpenAIModerationChain._moderate c text results =
          .error { message := "Text was found that violates OpenAI's content policy." })
    ∧ (results.flagged = true → c.«throwError» = false →
        OpenAIModerationChain._moderate c text results =
          .ok "Text was found that violates OpenAI's content policy.")
    ∧ (∀ (fields : OpenAIModerationChainInput) (env : Option String)
        (st : OpenAIModerationChain),
        fields.«throwError» = none →
        OpenAIModerationChain.construct (some fields) env = .ok st →
        st.«throwError» = false) := by
  refine ⟨?_, ?_, ?_, ?_⟩
  · intro hf
    simp [OpenAIModerationChain._moderate, hf]
  · intro hf ht
    simp [OpenAIModerationChain._moderate, hf, ht]
  · intro hf ht
    simp [OpenAIModerationChain._moderate, hf, ht]
  · intro fields env st h hok
    simp only [OpenAIModerationChain.construct] at hok
    split at hok
    · exact absurd hok (by simp)
    · cases hok
      simp [h]

/-- Witness for C10: the three `_moderate` behaviors at a concrete chain,
and the `throwError` default at a concrete construction. -/
theorem C10_moderate_behavior_witness :
    (OpenAIModerationChain._moderate sampleModerationChain "hi" { flagged := false } =
      .ok "hi")
    ∧ (OpenAIModerationChain._moderate { sampleModerationChain with «throwError» := true }
        "hi" { flagged := true } =
      .error { message := "Text was found that violates OpenAI's content policy." })
    ∧ (OpenAIModerationChain._moderate sampleModerationChain "hi" { flagged := true } =
      .ok "Text was found that violates OpenAI's content policy.")
    ∧ sampleModerationChain.«throwError» = false :=
  ⟨(C10_moderate_behavior sampleModerationChain "hi" { flagged := false }).1 rfl,
   (C10_moderate_behavior { sampleModerationChain with «throwError» := true } "hi"
      { flagged := true }).2.1 rfl rfl,
   (C10_moderate_behavior sampleModerationChain "hi" { flagged := true }).2.2.1 rfl rfl,
   (C10_moderate_behavior sampleModerationChain "hi" { flagged := true }).2.2.2
      { openAIApiKey := some "test-key" } none sampleModerationChain rfl rfl⟩

end LangChain
